import Mathlib

/-!
Verification development for the graphql-llm-visualizer extraction and
graph-construction pipeline. The definitions below are a shallow embedding of
the TypeScript sources: `schema-analyzer.ts` (schema model builder),
`resolver-analyzer.ts` (resolver classifier) and `static-analyzer.ts`
(graph synthesizer). Resolver source texts are modelled as lists of
characters; the regular-expression heuristics of the classifier are
translated into executable character-list scanners.
-/

/-! ### Character and string scanning utilities -/

/-- Word character class of the JavaScript regex `\w`: letters, digits, underscore. -/
def isWordChar (c : Char) : Bool :=
  (('a' ≤ c) && (c ≤ 'z')) || (('A' ≤ c) && (c ≤ 'Z')) ||
  (('0' ≤ c) && (c ≤ '9')) || (c == '_')

/-- Whitespace class of the JavaScript regex `\s` restricted to ASCII. -/
def isSpaceChar (c : Char) : Bool :=
  c == ' ' || c == '\t' || c == '\n' || c == '\r' || c.toNat == 11 || c.toNat == 12

/-- ASCII uppercasing of one character, the effect of JavaScript `toUpperCase` on ASCII text. -/
def upChar (c : Char) : Char :=
  if (97 ≤ c.toNat) && (c.toNat ≤ 122) then Char.ofNat (c.toNat - 32) else c

/-- ASCII uppercasing of a character list. -/
def upList (s : List Char) : List Char := s.map upChar

/-- Does `pat` occur at the very beginning of `s`? -/
def begMatch : List Char → List Char → Bool
  | [], _ => true
  | _ :: _, [] => false
  | p :: ps, c :: cs => p == c && begMatch ps cs

/-- Does `pat` occur as a contiguous substring of `s`? -/
def containsSub (pat : List Char) : List Char → Bool
  | [] => pat.isEmpty
  | c :: rest => begMatch pat (c :: rest) || containsSub pat rest

/-- Does predicate `p` hold on some suffix of `s`? Mirrors scanning a regex
across all start positions of a string. -/
def scanSuffix (p : List Char → Bool) : List Char → Bool
  | [] => p []
  | c :: rest => p (c :: rest) || scanSuffix p rest

/-- First (leftmost) result of `p` across the suffixes of `s`; mirrors the
leftmost-match rule of JavaScript `String.match`. -/
def scanFirst {α : Type} (p : List Char → Option α) : List Char → Option α
  | [] => p []
  | c :: rest =>
    match p (c :: rest) with
    | some v => some v
    | none => scanFirst p rest

/-- Single-quote character, kept out of string literals. -/
def sqChar : Char := Char.ofNat 39

/-- Double-quote character. -/
def dqChar : Char := Char.ofNat 34

/-- Backtick character. -/
def btChar : Char := Char.ofNat 96

/-- Quote class of the regex character class matching either quote. -/
def isQuoteChar (c : Char) : Bool := c == sqChar || c == dqChar

/-! ### Pattern detection helpers of `resolver-analyzer.ts` -/

/-- Match of the regex `prisma\.\w+\.\w+` anchored at the start of `s`. -/
def prismaHere (s : List Char) : Bool :=
  if begMatch "prisma.".toList s then
    let rest := s.drop 7
    let w1 := rest.takeWhile isWordChar
    if w1.isEmpty then false
    else
      match rest.drop w1.length with
      | '.' :: c :: _ => isWordChar c
      | _ => false
  else false

/-- `containsPrismaPattern`: test of `/prisma\.\w+\.\w+/`. -/
def containsPrismaPattern (s : List Char) : Bool := scanSuffix prismaHere s

/-- Match of `prisma\.(\w+)` anchored at the start of `s`, returning group 1. -/
def prismaModelHere (s : List Char) : Option (List Char) :=
  if begMatch "prisma.".toList s then
    let w := (s.drop 7).takeWhile isWordChar
    if w.isEmpty then none else some w
  else none

/-- `detectPrismaModel`: group 1 of the first match of `/prisma\.(\w+)/`. -/
def detectPrismaModel (s : List Char) : Option String :=
  (scanFirst prismaModelHere s).map String.mk

/-- The CRUD-style operation labels of `ResolverInfo.databaseInfo.operation`. -/
inductive DBOperation where
  | findMany
  | findUnique
  | create
  | update
  | delete
  | other
deriving DecidableEq

/-- `detectPrismaOperation`: the ordered substring checks of the source. -/
def detectPrismaOperation (s : List Char) : DBOperation :=
  if containsSub ".findMany".toList s then .findMany
  else if containsSub ".findUnique".toList s || containsSub ".findFirst".toList s then .findUnique
  else if containsSub ".create".toList s then .create
  else if containsSub ".update".toList s || containsSub ".updateMany".toList s then .update
  else if containsSub ".delete".toList s || containsSub ".deleteMany".toList s then .delete
  else .other

/-- Match of `\w+\.find\(|\w+\.findById\(|\w+\.findOne\(|\w+\.create\(` anchored at the start. -/
def mongooseHere (s : List Char) : Bool :=
  match s with
  | c :: rest =>
    isWordChar c &&
      (begMatch ".find(".toList rest || begMatch ".findById(".toList rest ||
       begMatch ".findOne(".toList rest || begMatch ".create(".toList rest)
  | [] => false

/-- `containsMongoosePattern`. -/
def containsMongoosePattern (s : List Char) : Bool := scanSuffix mongooseHere s

/-- Match of `repository\.\w+\(` anchored at the start of `s`. -/
def typeormHere (s : List Char) : Bool :=
  if begMatch "repository.".toList s then
    let rest := s.drop 11
    let w := rest.takeWhile isWordChar
    if w.isEmpty then false
    else
      match rest.drop w.length with
      | '(' :: _ => true
      | _ => false
  else false

/-- `containsTypeORMPattern`: test of `/repository\.\w+\(|getRepository\(/`. -/
def containsTypeORMPattern (s : List Char) : Bool :=
  scanSuffix typeormHere s || containsSub "getRepository(".toList s

/-- Match of `FROM\s+\w+` anchored at the start of uppercased text. -/
def fromHere (s : List Char) : Bool :=
  if begMatch "FROM".toList s then
    let rest := s.drop 4
    let sp := rest.takeWhile isSpaceChar
    if sp.isEmpty then false
    else
      match rest.drop sp.length with
      | c :: _ => isWordChar c
      | [] => false
  else false

/-- `containsSQLPattern`: test of `/SELECT|INSERT|UPDATE|DELETE|FROM\s+\w+/`
applied to the uppercased source text. -/
def containsSQLPattern (s : List Char) : Bool :=
  let u := upList s
  containsSub "SELECT".toList u || containsSub "INSERT".toList u ||
  containsSub "UPDATE".toList u || containsSub "DELETE".toList u ||
  scanSuffix fromHere u

/-- `containsRESTApiPattern`: test of
`/fetch\(|axios\.|\.get\(|\.post\(|\.put\(|\.delete\(|request\(/`. -/
def containsRESTApiPattern (s : List Char) : Bool :=
  containsSub "fetch(".toList s || containsSub "axios.".toList s ||
  containsSub ".get(".toList s || containsSub ".post(".toList s ||
  containsSub ".put(".toList s || containsSub ".delete(".toList s ||
  containsSub "request(".toList s

/-- `detectRESTMethod`: the ordered substring checks of the source. -/
def detectRESTMethod (s : List Char) : Option String :=
  if containsSub ".get(".toList s then some "GET"
  else if containsSub ".post(".toList s then some "POST"
  else if containsSub ".put(".toList s then some "PUT"
  else if containsSub ".delete(".toList s then some "DELETE"
  else if containsSub ".patch(".toList s then some "PATCH"
  else none

/-- Tail of the endpoint regex after the method name and opening parenthesis:
`\s*['"]([^'"]+)['"]`, returning the captured group. -/
def endpointAfterMethod (rest : List Char) : Option (List Char) :=
  let sp := rest.takeWhile isSpaceChar
  match rest.drop sp.length with
  | q :: more =>
    if isQuoteChar q then
      let body := more.takeWhile (fun c => !(isQuoteChar c))
      if body.isEmpty then none
      else
        match more.drop body.length with
        | q2 :: _ => if isQuoteChar q2 then some body else none
        | [] => none
    else none
  | [] => none

/-- Match of `\.(get|post|put|delete|patch)\(\s*['"]([^'"]+)['"]` anchored at
the start of `s`, returning group 2. -/
def endpointHere (s : List Char) : Option (List Char) :=
  match s with
  | '.' :: rest =>
    if begMatch "get(".toList rest then endpointAfterMethod (rest.drop 4)
    else if begMatch "post(".toList rest then endpointAfterMethod (rest.drop 5)
    else if begMatch "put(".toList rest then endpointAfterMethod (rest.drop 4)
    else if begMatch "delete(".toList rest then endpointAfterMethod (rest.drop 7)
    else if begMatch "patch(".toList rest then endpointAfterMethod (rest.drop 6)
    else none
  | _ => none

/-- `detectRESTEndpoint`: group 2 of the first match of the endpoint regex. -/
def detectRESTEndpoint (s : List Char) : Option String :=
  (scanFirst endpointHere s).map String.mk

/-- Match of `gql\s*` followed by a backtick, anchored at the start of `s`. -/
def gqlHere (s : List Char) : Bool :=
  if begMatch "gql".toList s then
    let rest := s.drop 3
    match rest.drop (rest.takeWhile isSpaceChar).length with
    | c :: _ => c == btChar
    | [] => false
  else false

/-- `containsGraphQLPattern`: test of the graphql-client regex (a `graphql(`
call or `gql` followed by optional whitespace and a backtick). -/
def containsGraphQLPattern (s : List Char) : Bool :=
  containsSub "graphql(".toList s || scanSuffix gqlHere s

/-- Match of `return\s+\w+(\s*\+\s*|\s*-\s*|\s*\*\s*|\s*\/\s*|\s*\?\s*|\s*\.\w+)`
anchored at the start of `s`. -/
def hasLogicHere (s : List Char) : Bool :=
  if begMatch "return".toList s then
    let rest := s.drop 6
    let sp := rest.takeWhile isSpaceChar
    if sp.isEmpty then false
    else
      let rest2 := rest.drop sp.length
      let w := rest2.takeWhile isWordChar
      if w.isEmpty then false
      else
        let rest3 := rest2.drop w.length
        let sp2 := rest3.takeWhile isSpaceChar
        match rest3.drop sp2.length with
        | c :: more =>
          if c == '+' || c == '-' || c == '*' || c == '/' || c == '?' then true
          else if c == '.' then
            match more with
            | d :: _ => isWordChar d
            | [] => false
          else false
        | [] => false
  else false

/-- `isLikelyComputed`: no data-access pattern present, but the logic regex matches. -/
def isLikelyComputed (s : List Char) : Bool :=
  !containsPrismaPattern s && !containsMongoosePattern s &&
  !containsTypeORMPattern s && !containsSQLPattern s &&
  !containsRESTApiPattern s && !containsGraphQLPattern s &&
  scanSuffix hasLogicHere s

/-- Match of `(\w+)\.resolvers\.(\w+)` anchored at the start of `s`, returning
the dependency string `group1.group2` and the length of the whole match. -/
def depHere (s : List Char) : Option (String × Nat) :=
  let w1 := s.takeWhile isWordChar
  if w1.isEmpty then none
  else
    let rest := s.drop w1.length
    if begMatch ".resolvers.".toList rest then
      let rest2 := rest.drop 11
      let w2 := rest2.takeWhile isWordChar
      if w2.isEmpty then none
      else some (String.mk w1 ++ "." ++ String.mk w2, w1.length + 11 + w2.length)
    else none

/-- Global scan for `(\w+)\.resolvers\.(\w+)`, resuming after each match as a
JavaScript global regex does; `fuel` bounds the recursion by the text length. -/
def detectDependenciesAux : Nat → List Char → List String
  | 0, _ => []
  | _, [] => []
  | Nat.succ fuel, c :: rest =>
    match depHere (c :: rest) with
    | some (dep, len) => dep :: detectDependenciesAux fuel ((c :: rest).drop len)
    | none => detectDependenciesAux fuel rest

/-- `detectDependencies`: dependency strings extracted from the resolver text. -/
def detectDependencies (s : List Char) : List String := detectDependenciesAux s.length s

/-! ### Data model of `types.ts` -/

/-- `ResolverInfo.sourceType`. -/
inductive SourceType where
  | database
  | api
  | computed
  | unknown
deriving DecidableEq

/-- `ResolverInfo.databaseInfo.type`. -/
inductive DBType where
  | prisma
  | mongoose
  | sequelize
  | typeorm
  | rawSql
  | other
deriving DecidableEq

/-- `ResolverInfo.databaseInfo`. -/
structure DatabaseInfo where
  dbType : DBType
  model : Option String := none
  operation : Option DBOperation := none
deriving DecidableEq

/-- `ResolverInfo.apiInfo.type`. -/
inductive ApiType where
  | rest
  | graphql
  | grpc
  | other
deriving DecidableEq

/-- `ResolverInfo.apiInfo`. -/
structure ApiInfo where
  apiType : ApiType
  endpoint : Option String := none
  method : Option String := none
deriving DecidableEq

/-- `ResolverInfo` of `types.ts`; the source field named `type` inside the
detail records is rendered `dbType`/`apiType` since `type` is reserved. -/
structure ResolverInfo where
  typeName : String
  fieldName : String
  path : String
  code : List Char
  sourceType : SourceType
  databaseInfo : Option DatabaseInfo := none
  apiInfo : Option ApiInfo := none
  dependencies : Option (List String) := none
deriving DecidableEq

/-- `SchemaField`; the source field `type` is rendered `fieldType`. -/
structure SchemaField where
  name : String
  fieldType : String
  isNonNull : Bool
  isList : Bool
  description : Option String := none
deriving DecidableEq

/-- `SchemaNode.type`; the source value string "Type" is rendered `ObjectType`. -/
inductive SchemaNodeKind where
  | Query
  | Mutation
  | ObjectType
  | Interface
  | Union
  | Enum
  | Input
deriving DecidableEq

/-- `SchemaNode`; the source field `type` is rendered `nodeType`. -/
structure SchemaNode where
  nodeType : SchemaNodeKind
  name : String
  fields : Option (List SchemaField) := none
  description : Option String := none
deriving DecidableEq

/-- `Connection.type`; the source value "extends" is rendered `extendsK`. -/
inductive ConnectionKind where
  | references
  | extendsK
  | implements
  | calls
  | resolves
deriving DecidableEq

/-- `Connection`; the source fields `from` and `to` are rendered `from_` and `to_`. -/
structure Connection where
  from_ : String
  to_ : String
  connType : ConnectionKind
  description : Option String := none
deriving DecidableEq

/-- `AnalysisResult`. -/
structure AnalysisResult where
  schema : List SchemaNode
  resolvers : List ResolverInfo
  connections : List Connection
deriving DecidableEq

/-! ### Schema model builder (`schema-analyzer.ts`) -/

/-- Introspection type reference: a named type possibly wrapped in `LIST` and
`NON_NULL` wrappers, each wrapper holding its inner type in `ofType`. -/
inductive TypeRef where
  | named (name : String)
  | list (ofType : TypeRef)
  | nonNull (ofType : TypeRef)
deriving DecidableEq

/-- `getTypeName`: unwrap `NON_NULL` and `LIST` wrappers recursively and
return the innermost type name. -/
def getTypeName : TypeRef → String
  | .nonNull t => getTypeName t
  | .list t => getTypeName t
  | .named n => n

/-- `isNonNull`: the source checks only whether the outermost kind is `NON_NULL`. -/
def isNonNull : TypeRef → Bool
  | .nonNull _ => true
  | _ => false

/-- `isList`: the source recurses through `NON_NULL` wrappers and then checks
whether the kind is `LIST`. -/
def isList : TypeRef → Bool
  | .nonNull t => isList t
  | .list _ => true
  | .named _ => false

/-- Top-level introspection type kinds distinguished by `determineNodeType`;
`SCALAR` stands for every kind falling into the default branch. -/
inductive TypeKind where
  | OBJECT
  | INTERFACE
  | UNION
  | ENUM
  | INPUT_OBJECT
  | SCALAR
deriving DecidableEq

/-- `determineNodeType`: kind plus name decide the node kind; scalars and other
kinds are not visualized. -/
def determineNodeType (kind : TypeKind) (name : String) : Option SchemaNodeKind :=
  match kind with
  | .OBJECT =>
    some (if name = "Query" then .Query else if name = "Mutation" then .Mutation else .ObjectType)
  | .INTERFACE => some .Interface
  | .UNION => some .Union
  | .ENUM => some .Enum
  | .INPUT_OBJECT => some .Input
  | .SCALAR => none

/-- One field of an introspection type. -/
structure IntrospectionField where
  name : String
  fieldType : TypeRef
  description : Option String := none
deriving DecidableEq

/-- One type of the introspection result; `fields` is meaningful for the
`OBJECT` and `INTERFACE` kinds. -/
structure IntrospectionType where
  kind : TypeKind
  name : String
  description : Option String := none
  fields : List IntrospectionField := []
deriving DecidableEq

/-- Errors of the schema model builder; `notLoaded` models the
"No schema loaded. Call loadSchema() first." exception. -/
inductive SchemaError where
  | notLoaded
  | parseError (msg : String)
deriving DecidableEq

/-- Does the string start with the given leading text? Mirrors `String.startsWith`. -/
def strStartsWith (s pre : String) : Bool := begMatch pre.toList s.toList

/-- Field mapping of `analyze`: name, unwrapped type name, wrapper flags. -/
def toSchemaField (f : IntrospectionField) : SchemaField :=
  { name := f.name
    fieldType := getTypeName f.fieldType
    isNonNull := isNonNull f.fieldType
    isList := isList f.fieldType
    description := f.description }

/-- Node mapping of `analyze`: the node kind from `determineNodeType`, and
fields attached for the `OBJECT` and `INTERFACE` kinds. -/
def toSchemaNode (t : IntrospectionType) : Option SchemaNode :=
  match determineNodeType t.kind t.name with
  | none => none
  | some nk =>
    some { nodeType := nk
           name := t.name
           fields := if t.kind = .OBJECT ∨ t.kind = .INTERFACE then some (t.fields.map toSchemaField) else none
           description := t.description }

/-- `SchemaAnalyzer.analyze`: fails with `notLoaded` when no schema is loaded;
otherwise drops introspection-internal types (names starting `__`) and maps
the rest through `toSchemaNode`. -/
def analyze (schema : Option (List IntrospectionType)) : Except SchemaError (List SchemaNode) :=
  match schema with
  | none => .error .notLoaded
  | some types => .ok ((types.filter (fun t => !(strStartsWith t.name "__"))).filterMap toSchemaNode)

/-- GraphQL `toString` of a type reference: `[T]` for lists, `T!` for non-null. -/
def gqlToString : TypeRef → String
  | .named n => n
  | .list t => "[" ++ gqlToString t ++ "]"
  | .nonNull t => gqlToString t ++ "!"

/-- Does the rendered type string contain the given character? -/
def strContainsChar (s : String) (c : Char) : Bool := s.toList.contains c

/-- The unwrap loop of `findTypeDependencies`: while the rendered type contains
`[` or `!`, step into `ofType`; a named type has no `ofType` and breaks. -/
def unwrapFieldType : TypeRef → TypeRef
  | .named n => .named n
  | .list t =>
    if strContainsChar (gqlToString (.list t)) '[' || strContainsChar (gqlToString (.list t)) '!' then
      unwrapFieldType t
    else .list t
  | .nonNull t =>
    if strContainsChar (gqlToString (.nonNull t)) '[' || strContainsChar (gqlToString (.nonNull t)) '!' then
      unwrapFieldType t
    else .nonNull t

/-- The five built-in scalar names excluded from dependency and reference edges. -/
def scalarNames : List String := ["ID", "String", "Int", "Float", "Boolean"]

/-- Kinds whose runtime type exposes `getFields`. -/
def hasGetFields (k : TypeKind) : Bool := k == .OBJECT || k == .INTERFACE || k == .INPUT_OBJECT

/-- Per-type body of `findTypeDependencies`: unwrapped field type names,
deduplicated, excluding empty names and built-in scalars. -/
def typeDepsOf (t : IntrospectionType) : List String :=
  if hasGetFields t.kind then
    t.fields.foldl
      (fun ds f =>
        let n := gqlToString (unwrapFieldType f.fieldType)
        if n ≠ "" ∧ ¬ scalarNames.contains n ∧ ¬ ds.contains n then ds ++ [n] else ds)
      []
  else []

/-- `SchemaAnalyzer.findTypeDependencies`: fails with `notLoaded` when no
schema is loaded; otherwise maps every non-internal type to its dependency list. -/
def findTypeDependencies (schema : Option (List IntrospectionType)) :
    Except SchemaError (List (String × List String)) :=
  match schema with
  | none => .error .notLoaded
  | some types =>
    .ok (types.foldl
      (fun acc t => if strStartsWith t.name "__" then acc else acc ++ [(t.name, typeDepsOf t)]) [])

/-! ### Resolver classifier (`resolver-analyzer.ts`) -/

/-- Split a character list at each dot, keeping empty segments, as
JavaScript `split('.')` does. -/
def splitOnDot : List Char → List (List Char)
  | [] => [[]]
  | c :: rest =>
    let r := splitOnDot rest
    if c == '.' then [] :: r
    else
      match r with
      | [] => [[c]]
      | g :: gs => (c :: g) :: gs

/-- `resolverPath.split('.').pop() || 'unknown'`: the last dot-separated
segment, or the literal "unknown" when that segment is empty (falsy). -/
def popOrUnknown (path : String) : String :=
  match (splitOnDot path.toList).getLast? with
  | some [] => "unknown"
  | some cs => String.mk cs
  | none => "unknown"

/-- The `ResolverInfo` record as first initialized by
`analyzeResolverImplementation`, before classification. -/
def baseResolverInfo (code : List Char) (resolverPath : String) : ResolverInfo :=
  { path := resolverPath
    typeName := popOrUnknown resolverPath
    fieldName := popOrUnknown resolverPath
    code := code
    sourceType := .unknown }

/-- The classification chain of `analyzeResolverImplementation`: database
patterns first (prisma, mongoose, typeorm, raw SQL), then API patterns
(REST, GraphQL), then the computed fallback, else unchanged. -/
def classifyResolverText (code : List Char) (base : ResolverInfo) : ResolverInfo :=
  if containsPrismaPattern code then
    { base with
      sourceType := .database
      databaseInfo := some
        { dbType := .prisma
          model := detectPrismaModel code
          operation := some (detectPrismaOperation code) } }
  else if containsMongoosePattern code then
    { base with sourceType := .database, databaseInfo := some { dbType := .mongoose } }
  else if containsTypeORMPattern code then
    { base with sourceType := .database, databaseInfo := some { dbType := .typeorm } }
  else if containsSQLPattern code then
    { base with sourceType := .database, databaseInfo := some { dbType := .rawSql } }
  else if containsRESTApiPattern code then
    { base with
      sourceType := .api
      apiInfo := some
        { apiType := .rest
          endpoint := detectRESTEndpoint code
          method := detectRESTMethod code } }
  else if containsGraphQLPattern code then
    { base with sourceType := .api, apiInfo := some { apiType := .graphql } }
  else if isLikelyComputed code then
    { base with sourceType := .computed }
  else base

/-- `analyzeResolverImplementation`: initialize the record from the path,
classify the node text, and attach the detected dependencies. -/
def analyzeResolverImplementation (code : List Char) (resolverPath : String) : ResolverInfo :=
  { classifyResolverText code (baseResolverInfo code resolverPath) with
    dependencies := some (detectDependencies code) }

/-- `analyzeResolverFunction` (the schema-driven classifier): the source only
checks the prisma pattern; its comment defers the other detection patterns. -/
def analyzeResolverFunction (resolverInfo : ResolverInfo) : ResolverInfo :=
  if containsPrismaPattern resolverInfo.code then
    { resolverInfo with
      sourceType := .database
      databaseInfo := some
        { dbType := .prisma
          model := detectPrismaModel resolverInfo.code
          operation := some (detectPrismaOperation resolverInfo.code) } }
  else resolverInfo

/-- The `ResolverInfo` record as `analyzeResolversFromSchema` constructs it for
one object-type field carrying a resolver, before `analyzeResolverFunction`. -/
def freshSchemaResolverInfo (typeName fieldName : String) (code : List Char) : ResolverInfo :=
  { typeName := typeName
    fieldName := fieldName
    path := typeName ++ "." ++ fieldName
    code := code
    sourceType := .unknown }

/-! ### Graph synthesizer (`static-analyzer.ts`) -/

/-- Rendered value of `databaseInfo.type`. -/
def dbTypeString : DBType → String
  | .prisma => "prisma"
  | .mongoose => "mongoose"
  | .sequelize => "sequelize"
  | .typeorm => "typeorm"
  | .rawSql => "raw-sql"
  | .other => "other"

/-- Rendered value of `apiInfo.type`. -/
def apiTypeString : ApiType → String
  | .rest => "rest"
  | .graphql => "graphql"
  | .grpc => "grpc"
  | .other => "other"

/-- JavaScript `model || 'unknown'`: an absent or empty model name falls back
to the literal "unknown". -/
def modelOr (m : Option String) : String :=
  match m with
  | some s => if s.isEmpty then "unknown" else s
  | none => "unknown"

/-- JavaScript `endpoint || type`: an absent or empty endpoint falls back to
the protocol name. -/
def endpointOrProtocol (info : ApiInfo) : String :=
  match info.endpoint with
  | some e => if e.isEmpty then apiTypeString info.apiType else e
  | none => apiTypeString info.apiType

/-- The data-source `calls` edge of `analyzeConnections`: a database edge when
the source type is database and database detail is present, else an API edge
when the source type is api and API detail is present. -/
def resolverCallsEdges (r : ResolverInfo) : List Connection :=
  match r.sourceType, r.databaseInfo, r.apiInfo with
  | .database, some info, _ =>
    [{ from_ := r.typeName ++ "." ++ r.fieldName
       to_ := "DB:" ++ modelOr info.model
       connType := .calls
       description := some ("Accesses " ++ modelOr info.model ++ " via " ++ dbTypeString info.dbType) }]
  | .api, _, some info =>
    [{ from_ := r.typeName ++ "." ++ r.fieldName
       to_ := "API:" ++ endpointOrProtocol info
       connType := .calls
       description := some ("Calls " ++ apiTypeString info.apiType ++ " API " ++
         (match info.endpoint with
          | some e => if e.isEmpty then "" else "at " ++ e
          | none => "")) }]
  | _, _, _ => []

/-- The dependency `calls` edges of `analyzeConnections`. -/
def resolverDependencyEdges (r : ResolverInfo) : List Connection :=
  match r.dependencies with
  | some deps =>
    deps.map (fun dep =>
      { from_ := r.typeName ++ "." ++ r.fieldName
        to_ := dep
        connType := .calls
        description := some ("Depends on " ++ dep) })
  | none => []

/-- All edges emitted for one resolver: the `resolves` edge from
`typeName.fieldName` to `typeName`, then the data-source edge, then the
dependency edges. -/
def resolverConnections (r : ResolverInfo) : List Connection :=
  { from_ := r.typeName ++ "." ++ r.fieldName
    to_ := r.typeName
    connType := .resolves
    description := some ("Resolver for " ++ r.typeName ++ "." ++ r.fieldName) }
  :: (resolverCallsEdges r ++ resolverDependencyEdges r)

/-- `field.type.replace(/[\[\]!]/g, '')`: remove every bracket and bang. -/
def stripWrapChars (s : String) : String :=
  String.mk (s.toList.filter (fun c => !(c == '[' || c == ']' || c == '!')))

/-- The schema-relationship edges of `analyzeConnections`: one `references`
edge per field whose raw type string is not a built-in scalar name. -/
def nodeReferenceConnections (node : SchemaNode) : List Connection :=
  match node.fields with
  | none => []
  | some fields =>
    fields.filterMap (fun field =>
      if scalarNames.contains field.fieldType then none
      else some
        { from_ := node.name
          to_ := stripWrapChars field.fieldType
          connType := .references
          description := some (node.name ++ " references " ++ field.fieldType ++
            " via " ++ field.name ++ " field") })

/-- `StaticAnalyzer.analyzeConnections`: per-resolver edges in input order,
then per-schema-node `references` edges in input order. -/
def analyzeConnections (schemaNodes : List SchemaNode) (resolverInfos : List ResolverInfo) :
    AnalysisResult :=
  { schema := schemaNodes
    resolvers := resolverInfos
    connections :=
      (resolverInfos.map resolverConnections).flatten ++
      (schemaNodes.map nodeReferenceConnections).flatten }

/-! ### Enrichment merge policy -/

/-- One externally suggested classification for a resolver path. -/
structure ResolverSuggestion where
  sourceType : SourceType
  databaseInfo : Option DatabaseInfo := none
  apiInfo : Option ApiInfo := none
  dependencies : Option (List String) := none
deriving DecidableEq

/-- Order-preserving set union of dependency lists. -/
def unionDeps (a b : List String) : List String := a ++ b.filter (fun d => ¬ a.contains d)

/-- Modelled from the spec: the Enrichment Merge Policy of the LLM analyzer,
whose source file is not under `src/`. A resolver already classified as
something other than `unknown` keeps its classification and detail fields
regardless of the suggestion; a still-`unknown` resolver adopts the suggested
classification and detail fields verbatim; dependencies are unioned. -/
def mergeResolverSuggestion (staticInfo : ResolverInfo) (sugg : ResolverSuggestion) : ResolverInfo :=
  if staticInfo.sourceType = SourceType.unknown then
    { staticInfo with
      sourceType := sugg.sourceType
      databaseInfo := sugg.databaseInfo
      apiInfo := sugg.apiInfo
      dependencies := some (unionDeps (staticInfo.dependencies.getD []) (sugg.dependencies.getD [])) }
  else
    { staticInfo with
      dependencies := some (unionDeps (staticInfo.dependencies.getD []) (sugg.dependencies.getD [])) }

/-! ### Concrete inputs used in the scenario theorems -/

/-- Resolver body `return fetch('https://x/y').then(r=>r.json())`. -/
def fetchBody : List Char :=
  "return fetch(".toList ++ [sqChar] ++ "https://x/y".toList ++ [sqChar] ++
  ").then(r=>r.json())".toList

/-- Resolver body `return axios.delete('/x')`. -/
def axiosDeleteBody : List Char :=
  "return axios.delete(".toList ++ [sqChar] ++ "/x".toList ++ [sqChar] ++ ")".toList

/-- Resolver body `return prisma.user.findMany()`. -/
def prismaBody : List Char := "return prisma.user.findMany()".toList

/-- Resolver body containing both a raw SQL keyword and an HTTP client call. -/
def sqlFetchBody : List Char :=
  "const r = db.query(".toList ++ [sqChar] ++ "SELECT id FROM users".toList ++ [sqChar] ++
  "); return fetch(".toList ++ [sqChar] ++ "https://x/y".toList ++ [sqChar] ++ ")".toList

/-- Introspection fields of `type Post { id: ID!  title: String  author: User }`. -/
def postIntroFields : List IntrospectionField :=
  [{ name := "id", fieldType := .nonNull (.named "ID") },
   { name := "title", fieldType := .named "String" },
   { name := "author", fieldType := .named "User" }]

/-- Introspection object type `Post`. -/
def postIntro : IntrospectionType :=
  { kind := .OBJECT, name := "Post", fields := postIntroFields }

/-- The schema fields the model builder produces for `Post`. -/
def postFields : List SchemaField :=
  [{ name := "id", fieldType := "ID", isNonNull := true, isList := false },
   { name := "title", fieldType := "String", isNonNull := false, isList := false },
   { name := "author", fieldType := "User", isNonNull := false, isList := false }]

/-- The schema node the model builder produces for `Post`. -/
def postNode : SchemaNode :=
  { nodeType := .ObjectType, name := "Post", fields := some postFields }

/-- The introspection type reference of `[User!]`. -/
def userBangList : TypeRef := .list (.nonNull (.named "User"))

/-- A statically classified database resolver, used in the merge-policy scenario. -/
def staticDbResolver : ResolverInfo :=
  { typeName := "Query"
    fieldName := "users"
    path := "Query.users"
    code := prismaBody
    sourceType := .database
    databaseInfo := some { dbType := .prisma, model := some "user", operation := some .findMany } }

/-- An external suggestion proposing an API classification for the same path. -/
def apiSuggestion : ResolverSuggestion :=
  { sourceType := .api
    apiInfo := some { apiType := .rest, endpoint := some "/users", method := some "GET" } }


/-- Strip the `NON_NULL` wrappers at the top of a type reference. -/
def stripNonNull : TypeRef → TypeRef
  | .nonNull t => stripNonNull t
  | .list t => .list t
  | .named n => .named n

/-- Specification-side reading of `isNonNull`: only the outermost wrapper counts. -/
def isNonNullSpec (t : TypeRef) : Bool :=
  match t with
  | .nonNull _ => true
  | .list _ => false
  | .named _ => false

/-- Specification-side reading of `isList`: after stripping the top `NON_NULL`
wrappers, is the next layer a `LIST` wrapper? -/
def isListSpec (t : TypeRef) : Bool :=
  match stripNonNull t with
  | .list _ => true
  | _ => false

/-! ### Helper lemmas -/

/-- Any database-signature match sends the classification chain to `database`. -/
theorem classify_db_of_match (code : List Char) (base : ResolverInfo)
    (hdb : containsPrismaPattern code = true ∨ containsMongoosePattern code = true ∨
           containsTypeORMPattern code = true ∨ containsSQLPattern code = true) :
    (classifyResolverText code base).sourceType = SourceType.database := by
  unfold classifyResolverText
  rcases hdb with h | h | h | h
  · simp [h]
  · cases h1 : containsPrismaPattern code <;> simp [h1, h]
  · cases h1 : containsPrismaPattern code <;> cases h2 : containsMongoosePattern code <;>
      simp [h1, h2, h]
  · cases h1 : containsPrismaPattern code <;> cases h2 : containsMongoosePattern code <;>
      cases h3 : containsTypeORMPattern code <;> simp [h1, h2, h3, h]

/-- The classification chain only ever produces one of four record shapes. -/
theorem classify_shape (code : List Char) (base : ResolverInfo) :
    (∃ i, classifyResolverText code base =
      { base with sourceType := .database, databaseInfo := some i }) ∨
    (∃ i, classifyResolverText code base =
      { base with sourceType := .api, apiInfo := some i }) ∨
    classifyResolverText code base = { base with sourceType := .computed } ∨
    classifyResolverText code base = base := by
  unfold classifyResolverText
  repeat' split
  all_goals
    first
      | exact Or.inl ⟨_, rfl⟩
      | exact Or.inr (Or.inl ⟨_, rfl⟩)
      | exact Or.inr (Or.inr (Or.inl rfl))
      | exact Or.inr (Or.inr (Or.inr rfl))

/-- `analyzeResolverImplementation` is the classification chain with the
dependency list attached. -/
theorem analyzeResolverImplementation_eq (code : List Char) (resolverPath : String) :
    analyzeResolverImplementation code resolverPath =
      { classifyResolverText code (baseResolverInfo code resolverPath) with
        dependencies := some (detectDependencies code) } := rfl

/-- The edges emitted for a single resolver never have kind `references`. -/
theorem resolverConnections_no_references (r : ResolverInfo) :
    (resolverConnections r).filter (fun c => decide (c.connType = ConnectionKind.references)) = [] := by
  unfold resolverConnections resolverCallsEdges resolverDependencyEdges
  cases hs : r.sourceType <;> cases hdb : r.databaseInfo <;> cases hapi : r.apiInfo <;>
    cases hdep : r.dependencies <;>
    simp [List.filter_cons, List.filter_append, List.filter_map, Function.comp_def]

/-- Across a whole resolver collection, no `references` edge is emitted. -/
theorem resolvers_no_references (rs : List ResolverInfo) :
    ((rs.map resolverConnections).flatten).filter
      (fun c => decide (c.connType = ConnectionKind.references)) = [] := by
  induction rs with
  | nil => rfl
  | cons r rest ih =>
    simp [List.filter_append, resolverConnections_no_references r, ih]

/-- Every schema-relationship edge has kind `references`. -/
theorem nodeReferenceConnections_all_references (node : SchemaNode) :
    (nodeReferenceConnections node).filter
      (fun c => decide (c.connType = ConnectionKind.references)) =
    nodeReferenceConnections node := by
  unfold nodeReferenceConnections
  cases hf : node.fields with
  | none => rfl
  | some fields =>
    induction fields with
    | nil => rfl
    | cons f fs ih =>
      by_cases hs : f.fieldType ∈ scalarNames <;>
        simp_all [List.filterMap_cons, List.filter_cons] <;>
        (intro a x hx hxs ha
         subst ha
         rfl)

/-- The schema-relationship edges of one node, reformulated as the spec states
them: one `references` edge per field whose unwrapped declared type is not a
built-in scalar, provided the field types carry no wrapper syntax. -/
theorem refFieldsSpec (name : String) (fields : List SchemaField)
    (hclean : ∀ f ∈ fields, stripWrapChars f.fieldType = f.fieldType) :
    (fields.filterMap (fun field =>
      if scalarNames.contains field.fieldType then none
      else some
        ({ from_ := name
           to_ := stripWrapChars field.fieldType
           connType := ConnectionKind.references
           description := some (name ++ " references " ++ field.fieldType ++
             " via " ++ field.name ++ " field") } : Connection))) =
    ((fields.filter (fun f => !(scalarNames.contains (stripWrapChars f.fieldType)))).map
      (fun f =>
        ({ from_ := name
           to_ := stripWrapChars f.fieldType
           connType := ConnectionKind.references
           description := some (name ++ " references " ++ f.fieldType ++
             " via " ++ f.name ++ " field") } : Connection))) := by
  induction fields with
  | nil => rfl
  | cons f fs ih =>
    have hcf := hclean f (List.mem_cons_self f fs)
    have hrest := ih (fun g hg => hclean g (List.mem_cons_of_mem f hg))
    by_cases hs : f.fieldType ∈ scalarNames <;>
      simp [List.filterMap_cons, List.filter_cons, hcf, hs] <;>
      simpa using hrest

/-! ### Claim theorems -/

/-- C1: for a resolver produced by the file-based classifier at path
`Query.users`, the code stores the last path segment in `typeName`, so the
single `resolves` edge runs from `users.users` to `users` — not from the
resolver's path `Query.users` to the declaring type `Query` as the claim
states. The full edge list at this input is evaluated below. -/
theorem c1_resolves_edge_mismatch :
    (analyzeResolverImplementation prismaBody "Query.users").path = "Query.users" ∧
    (analyzeResolverImplementation prismaBody "Query.users").typeName = "users" ∧
    (analyzeConnections [] [analyzeResolverImplementation prismaBody "Query.users"]).connections =
      [{ from_ := "users.users", to_ := "users", connType := .resolves,
         description := some "Resolver for users.users" },
       { from_ := "users.users", to_ := "DB:user", connType := .calls,
         description := some "Accesses user via prisma" }] ∧
    "users.users" ≠ (analyzeResolverImplementation prismaBody "Query.users").path := by
  decide

/-- C2 counterexample: for the field type `[User!]` the builder reports
`isNonNull = false`, refuting the claim that a `NON_NULL` wrapper at any
depth sets `isNonNull = true`. -/
theorem c2_claim_counterexample :
    isList userBangList = true ∧ isNonNull userBangList = false ∧
    getTypeName userBangList = "User" := by decide

/-- C2 amended: `isNonNull` reflects only the outermost wrapper, `isList`
recurses only through `NON_NULL` wrappers and reports whether a `LIST`
wrapper then appears, and the innermost named type becomes the declared type;
in particular `[User!]` yields `isList = true`, `isNonNull = false` and
declared type `User`. -/
theorem c2_wrapper_flags_amended :
    (∀ t : TypeRef, isNonNull t = isNonNullSpec t ∧ isList t = isListSpec t ∧
      getTypeName t = getTypeName (stripNonNull t)) ∧
    (isList userBangList = true ∧ isNonNull userBangList = false ∧
      getTypeName userBangList = "User") := by
  constructor
  · intro t
    refine ⟨?_, ?_, ?_⟩
    · cases t <;> rfl
    · induction t with
      | named n => rfl
      | list u ih => rfl
      | nonNull u ih => exact ih
    · induction t with
      | named n => rfl
      | list u ih => rfl
      | nonNull u ih => exact ih
  · exact ⟨rfl, rfl, rfl⟩

/-- C3: the schema-driven entry point classifies through
`analyzeResolverFunction`, which only implements the prisma check; on the
body `return fetch('https://x/y').then(r=>r.json())` it leaves the source
kind `unknown` while the file-based classifier assigns `api` — the two
classification paths are not equivalent. -/
theorem c3_schema_entry_divergence :
    (analyzeResolverImplementation fetchBody "Query.user").sourceType = SourceType.api ∧
    (analyzeResolverFunction (freshSchemaResolverInfo "Query" "user" fetchBody)).sourceType =
      SourceType.unknown := by decide

/-- C4: database rules are checked before API rules, so any text matching a
database signature and an API signature classifies as `database`. -/
theorem c4_database_precedes_api (code : List Char) (resolverPath : String)
    (hdb : containsPrismaPattern code = true ∨ containsMongoosePattern code = true ∨
           containsTypeORMPattern code = true ∨ containsSQLPattern code = true)
    (hapi : containsRESTApiPattern code = true ∨ containsGraphQLPattern code = true) :
    (analyzeResolverImplementation code resolverPath).sourceType = SourceType.database := by
  show (classifyResolverText code (baseResolverInfo code resolverPath)).sourceType =
    SourceType.database
  exact classify_db_of_match code (baseResolverInfo code resolverPath) hdb

/-- C4 witness: a body containing a raw SQL keyword and a `fetch(` call is
classified `database`. -/
theorem c4_database_precedes_api_witness :
    (analyzeResolverImplementation sqlFetchBody "Query.users").sourceType =
      SourceType.database :=
  c4_database_precedes_api sqlFetchBody "Query.users"
    (Or.inr (Or.inr (Or.inr (by decide)))) (Or.inl (by decide))

/-- C8: the body `return fetch('https://x/y').then(r=>r.json())` classifies as
`api` with protocol `rest`, no method and no endpoint. -/
theorem c8_fetch_scenario :
    (analyzeResolverImplementation fetchBody "Query.user").sourceType = SourceType.api ∧
    (analyzeResolverImplementation fetchBody "Query.user").apiInfo =
      some { apiType := .rest, endpoint := none, method := none } := by decide

/-- C9: with no schema loaded, both query operations of the schema model
builder fail with the `notLoaded` error. -/
theorem c9_query_requires_loaded_schema :
    analyze none = Except.error SchemaError.notLoaded ∧
    findTypeDependencies none = Except.error SchemaError.notLoaded :=
  ⟨rfl, rfl⟩

/-- C10: the body `return axios.delete('/x')` contains an HTTP client pattern
but the uppercased text contains the substring `DELETE`, so the raw-SQL rule
fires first and the resolver classifies as `database` with engine `raw-sql`,
not as `api`. -/
theorem c10_axios_delete_classified_database :
    containsRESTApiPattern axiosDeleteBody = true ∧
    (analyzeResolverImplementation axiosDeleteBody "Mutation.removeX").sourceType =
      SourceType.database ∧
    (analyzeResolverImplementation axiosDeleteBody "Mutation.removeX").databaseInfo =
      some { dbType := .rawSql, model := none, operation := none } ∧
    (analyzeResolverImplementation axiosDeleteBody "Mutation.removeX").apiInfo = none := by
  decide

/-- C5: for resolvers produced by either classifier entry point, the database
and API detail fields are never both present, an `unknown` source kind
implies both are absent, and each detail field is present only for its own
source kind: a present `databaseInfo` forces source kind `database` and a
present `apiInfo` forces source kind `api`. -/
theorem c5_detail_fields_exclusive (code : List Char) (resolverPath typeName fieldName : String) :
    (((analyzeResolverImplementation code resolverPath).databaseInfo = none ∨
      (analyzeResolverImplementation code resolverPath).apiInfo = none) ∧
     ((analyzeResolverImplementation code resolverPath).sourceType = SourceType.unknown →
      (analyzeResolverImplementation code resolverPath).databaseInfo = none ∧
      (analyzeResolverImplementation code resolverPath).apiInfo = none) ∧
     ((analyzeResolverImplementation code resolverPath).databaseInfo ≠ none →
      (analyzeResolverImplementation code resolverPath).sourceType = SourceType.database) ∧
     ((analyzeResolverImplementation code resolverPath).apiInfo ≠ none →
      (analyzeResolverImplementation code resolverPath).sourceType = SourceType.api)) ∧
    (((analyzeResolverFunction (freshSchemaResolverInfo typeName fieldName code)).databaseInfo = none ∨
      (analyzeResolverFunction (freshSchemaResolverInfo typeName fieldName code)).apiInfo = none) ∧
     ((analyzeResolverFunction (freshSchemaResolverInfo typeName fieldName code)).sourceType =
        SourceType.unknown →
      (analyzeResolverFunction (freshSchemaResolverInfo typeName fieldName code)).databaseInfo = none ∧
      (analyzeResolverFunction (freshSchemaResolverInfo typeName fieldName code)).apiInfo = none) ∧
     ((analyzeResolverFunction (freshSchemaResolverInfo typeName fieldName code)).databaseInfo ≠ none →
      (analyzeResolverFunction (freshSchemaResolverInfo typeName fieldName code)).sourceType =
        SourceType.database) ∧
     ((analyzeResolverFunction (freshSchemaResolverInfo typeName fieldName code)).apiInfo ≠ none →
      (analyzeResolverFunction (freshSchemaResolverInfo typeName fieldName code)).sourceType =
        SourceType.api)) := by
  constructor
  · rw [analyzeResolverImplementation_eq]
    rcases classify_shape code (baseResolverInfo code resolverPath) with
      ⟨i, hi⟩ | ⟨i, hi⟩ | hi | hi <;> rw [hi] <;> simp [baseResolverInfo]
  · unfold analyzeResolverFunction
    cases h : containsPrismaPattern (freshSchemaResolverInfo typeName fieldName code).code <;>
      simp [h, freshSchemaResolverInfo]

/-- C5 witness: on the empty resolver body the file-based classifier leaves
the source kind `unknown`, and the invariant then gives both detail fields
absent. -/
theorem c5_detail_fields_exclusive_witness :
    (analyzeResolverImplementation [] "Query.ping").databaseInfo = none ∧
    (analyzeResolverImplementation [] "Query.ping").apiInfo = none :=
  ((c5_detail_fields_exclusive [] "Query.ping" "Query" "ping").1).2.1 (by decide)

/-- C6: the enrichment merge policy is monotone — a resolver whose static
classification is not `unknown` keeps its source kind and both detail fields
whatever the external suggestion proposes. -/
theorem c6_merge_monotone (staticInfo : ResolverInfo) (sugg : ResolverSuggestion)
    (h : staticInfo.sourceType ≠ SourceType.unknown) :
    (mergeResolverSuggestion staticInfo sugg).sourceType = staticInfo.sourceType ∧
    (mergeResolverSuggestion staticInfo sugg).databaseInfo = staticInfo.databaseInfo ∧
    (mergeResolverSuggestion staticInfo sugg).apiInfo = staticInfo.apiInfo := by
  unfold mergeResolverSuggestion
  simp [h]

/-- C6 witness: a static `database` classification plus an external `api`
suggestion merges to the static `database` classification. -/
theorem c6_merge_monotone_witness :
    (mergeResolverSuggestion staticDbResolver apiSuggestion).sourceType =
      staticDbResolver.sourceType ∧
    staticDbResolver.sourceType = SourceType.database ∧
    apiSuggestion.sourceType = SourceType.api :=
  ⟨(c6_merge_monotone staticDbResolver apiSuggestion (by decide)).1, rfl, rfl⟩

/-- C7: in static synthesis, the `references` edges are exactly one edge per
schema-node field whose unwrapped declared type is not a built-in scalar,
running from the node's name to that unwrapped type name; scalar-typed fields
produce no edge. The hypothesis states the builder invariant that field type
strings carry no wrapper syntax, under which the raw type string coincides
with the unwrapped type name the code compares against the scalar list. -/
theorem c7_references_per_field (node : SchemaNode) (fields : List SchemaField)
    (resolvers : List ResolverInfo)
    (hf : node.fields = some fields)
    (hclean : ∀ f ∈ fields, stripWrapChars f.fieldType = f.fieldType) :
    ((analyzeConnections [node] resolvers).connections.filter
      (fun c => decide (c.connType = ConnectionKind.references))) =
    ((fields.filter (fun f => !(scalarNames.contains (stripWrapChars f.fieldType)))).map
      (fun f =>
        ({ from_ := node.name
           to_ := stripWrapChars f.fieldType
           connType := ConnectionKind.references
           description := some (node.name ++ " references " ++ f.fieldType ++
             " via " ++ f.name ++ " field") } : Connection))) := by
  have hconn : (analyzeConnections [node] resolvers).connections =
      (resolvers.map resolverConnections).flatten ++ nodeReferenceConnections node := by
    unfold analyzeConnections
    simp
  rw [hconn, List.filter_append, resolvers_no_references,
    nodeReferenceConnections_all_references, List.nil_append]
  have hnode : nodeReferenceConnections node =
      fields.filterMap (fun field =>
        if scalarNames.contains field.fieldType then none
        else some
          ({ from_ := node.name
             to_ := stripWrapChars field.fieldType
             connType := ConnectionKind.references
             description := some (node.name ++ " references " ++ field.fieldType ++
               " via " ++ field.name ++ " field") } : Connection)) := by
    unfold nodeReferenceConnections
    rw [hf]
  rw [hnode]
  exact refFieldsSpec node.name fields hclean

/-- C7 witness: the schema `type Post { id: ID!  title: String  author: User }`
passes through the model builder to `postNode`, and static synthesis emits
exactly one `references` edge, `Post` to `User`, and none for `id` or `title`. -/
theorem c7_references_per_field_witness :
    analyze (some [postIntro]) = Except.ok [postNode] ∧
    ((analyzeConnections [postNode] []).connections.filter
      (fun c => decide (c.connType = ConnectionKind.references))) =
    [{ from_ := "Post", to_ := "User", connType := ConnectionKind.references,
       description := some "Post references User via author field" }] := by
  refine ⟨rfl, ?_⟩
  rw [c7_references_per_field postNode postFields [] rfl (by decide)]
  decide
